import Mathlib

/-!
Verification of the metrics core of `astrbot_plugin_WZL_StatusPlus`
(`src/main.py`): the unit-normalizing formatter `format_units` and the
network-throughput sampler `_calc_network_speed`.

The embedding is shallow.  Python floats are modelled by `ℚ`: every value
arising in the claims is a dyadic rational on which Python float arithmetic
(division by powers of two, subtraction of exactly representable values) is
exact, so the `ℚ` semantics coincides with the float semantics there.
Cumulative byte counters are Python ints, modelled by `ℤ`.  A Python
`ZeroDivisionError` escaping `_calc_network_speed` is modelled by
`Except.error ()`.
-/

/-- Floor of a rational, `⌊q⌋`, computed directly on the reduced
numerator/denominator pair (`Rat` keeps `den > 0`). -/
def qfloor (q : ℚ) : ℤ := Int.fdiv q.num q.den

/-- Round a rational to the nearest integer, ties to even — the rounding
Python's fixed-point `format` applies to the (here exact) value. -/
def roundHalfEven (q : ℚ) : ℤ :=
  let f := qfloor q
  let r := q - (f : ℚ)
  if r < 1 / 2 then f
  else if r = 1 / 2 then (if f % 2 = 0 then f else f + 1)
  else f + 1

/-- Absolute value of a rational, written without the lattice instances so
that concrete evaluations stay cheap for the kernel. -/
def qabs (q : ℚ) : ℚ := if q < 0 then -q else q

/-- Left-pad a digit string with zeros to length `p`. -/
def padZeros (s : String) (p : ℕ) : String :=
  if s.length < p then String.mk (List.replicate (p - s.length) '0') ++ s
  else s

/-- Python `f"{x:.{p}f}"` on an exact value: sign of `x`, then `|x|` rounded
half-to-even at `p` decimal digits, with a decimal point iff `p > 0`. -/
def formatFixed (x : ℚ) (p : ℕ) : String :=
  let n := (roundHalfEven (qabs x * ((10 ^ p : ℕ) : ℚ))).toNat
  let sign := if x < 0 then "-" else ""
  if p = 0 then sign ++ toString n
  else sign ++ toString (n / 10 ^ p) ++ "." ++ padZeros (toString (n % 10 ^ p)) p

/-- The ordered unit table of `format_units` (main.py line 17). -/
def unitsList : List String := ["B", "KB", "MB", "GB", "TB"]

/-- The `while num >= 1024 and unit_index < 4` loop of `format_units`
(main.py lines 19-21), returning the scaled value and the unit index.
`fuel` is structural fuel; since `unit_index` grows by one per iteration and
the guard requires `unit_index < 4`, fuel `4` from index `0` is exact. -/
def scaleLoopF : ℕ → ℚ → ℕ → ℚ × ℕ
  | 0, num, idx => (num, idx)
  | fuel + 1, num, idx =>
      if 1024 ≤ num ∧ idx < 4 then scaleLoopF fuel (num / 1024) (idx + 1)
      else (num, idx)

/-- `format_units` (main.py lines 15-22).  The source default for
`precision` is `2`; callers in the claims all use that default. -/
def format_units (num : ℚ) (precision : ℕ) : String :=
  let p := scaleLoopF 4 num 0
  formatFixed p.1 precision ++ " " ++ unitsList.getD p.2 ""

/-- One `psutil.net_io_counters()` snapshot, restricted to the two fields
`_calc_network_speed` reads. -/
structure NetSnapshot where
  bytes_sent : ℤ
  bytes_recv : ℤ
deriving DecidableEq

/-- The sampler's mutable state: `self._prev_net` and `self._prev_ts`
(main.py lines 32-33), both `None` on a fresh instance. -/
structure SamplerState where
  prev_net : Option NetSnapshot
  prev_ts : Option ℚ
deriving DecidableEq

/-- `_calc_network_speed` (main.py lines 51-69), with the ambient reads of
`psutil.net_io_counters()` and `datetime.now().timestamp()` passed in as
`current` and `now`.  Python's truthiness test
`if self._prev_net and self._prev_ts:` is false when either field is `None`
or when the stored timestamp is `0.0` (a namedtuple is always truthy).
Both rate expressions divide by `time_diff`, so `time_diff = 0` raises
`ZeroDivisionError` (`Except.error ()`); in that case lines 67-68 never run.
On success the result carries the two rate strings and the overwritten
state. -/
def calc_network_speed (st : SamplerState) (current : NetSnapshot) (now : ℚ) :
    Except Unit (String × String × SamplerState) :=
  match st.prev_net, st.prev_ts with
  | some prev, some pts =>
      if pts = 0 then
        Except.ok ("0.00 KB/s", "0.00 KB/s", ⟨some current, some now⟩)
      else
        let time_diff := now - pts
        let up : ℤ := current.bytes_sent - prev.bytes_sent
        let down : ℤ := current.bytes_recv - prev.bytes_recv
        if time_diff = 0 then Except.error ()
        else
          let upload :=
            if up < 1048576 then formatFixed ((up : ℚ) / time_diff / 1024) 2 ++ " KB/s"
            else formatFixed ((up : ℚ) / time_diff / 1048576) 2 ++ " MB/s"
          let download :=
            if down < 1048576 then formatFixed ((down : ℚ) / time_diff / 1024) 2 ++ " KB/s"
            else formatFixed ((down : ℚ) / time_diff / 1048576) 2 ++ " MB/s"
          Except.ok (upload, download, ⟨some current, some now⟩)
  | _, _ => Except.ok ("0.00 KB/s", "0.00 KB/s", ⟨some current, some now⟩)

/-- The sampler state after one call of `_calc_network_speed`: on a normal
return the state stored by lines 67-68; when the call raises, the
assignments never execute and the object keeps its old state. -/
def sampleStep (st : SamplerState) (current : NetSnapshot) (now : ℚ) :
    SamplerState :=
  match calc_network_speed st current now with
  | Except.ok r => r.2.2
  | Except.error _ => st

/-- One unfolding step of the scaling loop. -/
theorem scaleLoopF_succ (fuel : ℕ) (num : ℚ) (idx : ℕ) :
    scaleLoopF (fuel + 1) num idx =
      if 1024 ≤ num ∧ idx < 4 then scaleLoopF fuel (num / 1024) (idx + 1)
      else (num, idx) := rfl

/-- The loop guard `unit_index < 4` keeps the unit index within the table. -/
theorem scaleLoopF_idx_le (fuel : ℕ) (num : ℚ) (idx : ℕ) (h : idx ≤ 4) :
    (scaleLoopF fuel num idx).2 ≤ 4 := by
  induction fuel generalizing num idx with
  | zero => simpa using h
  | succ f ih =>
      rw [scaleLoopF_succ]
      split
      · next hc => exact ih _ _ hc.2
      · simpa using h

/-- C4: on a fresh sampler (both stored fields `None`), the call returns the
zero-rate pair `("0.00 KB/s", "0.00 KB/s")` whatever the snapshot's counters
are, and stores the snapshot and timestamp as the new previous values. -/
theorem first_call_zero_rate (current : NetSnapshot) (now : ℚ) :
    calc_network_speed ⟨none, none⟩ current now =
      Except.ok ("0.00 KB/s", "0.00 KB/s", ⟨some current, some now⟩) := rfl

/-- C5: the four point values of the formatter, and boundedness of the unit
table: for every non-negative input the emitted unit is one of the five
table entries (so never beyond `TB`, even for inputs of `1024 ^ 5` and up). -/
theorem format_units_spec_points :
    format_units 0 2 = "0.00 B" ∧ format_units 1024 2 = "1.00 KB" ∧
    format_units 1536 2 = "1.50 KB" ∧
    format_units (1024 ^ 4 * 5) 2 = "5.00 TB" ∧
    ∀ num : ℚ, 0 ≤ num → ∃ u ∈ unitsList,
      format_units num 2 = formatFixed (scaleLoopF 4 num 0).1 2 ++ " " ++ u := by
  refine ⟨by with_unfolding_all rfl, by with_unfolding_all rfl,
    by with_unfolding_all rfl, ?_, ?_⟩
  · rw [show (1024 ^ 4 * 5 : ℚ) = 5497558138880 by norm_num]
    with_unfolding_all rfl
  intro num _
  set k := (scaleLoopF 4 num 0).2 with hk
  have h : k ≤ 4 := scaleLoopF_idx_le 4 num 0 (by norm_num)
  refine ⟨unitsList.getD k "", ?_, rfl⟩
  have h5 : k = 0 ∨ k = 1 ∨ k = 2 ∨ k = 3 ∨ k = 4 := by omega
  rcases h5 with h' | h' | h' | h' | h' <;> rw [h'] <;> decide

/-- C5 witness: the bounded-unit clause applied at the beyond-table input
`1024 ^ 5`. -/
theorem format_units_spec_points_witness :
    ∃ u ∈ unitsList, format_units (1024 ^ 5) 2 =
      formatFixed (scaleLoopF 4 (1024 ^ 5) 0).1 2 ++ " " ++ u :=
  format_units_spec_points.2.2.2.2 (1024 ^ 5) (by norm_num)

/-- C9: a strictly negative input never enters the scaling loop: the result
is the input itself formatted at the requested precision, with unit `B` —
neither clamped to zero nor rejected. -/
theorem format_units_negative (num : ℚ) (h : num < 0) (p : ℕ) :
    format_units num p = formatFixed num p ++ " B" := by
  have h4 : (4 : ℕ) = 3 + 1 := rfl
  have hng : ¬(1024 ≤ num ∧ (0 : ℕ) < 4) := fun hc => absurd hc.1 (by linarith)
  unfold format_units
  rw [h4, scaleLoopF_succ, if_neg hng]
  rw [String.append_assoc]
  rfl

/-- C9 witness: the negative-input clause at `num = -5`. -/
theorem format_units_negative_witness :
    (-5 : ℚ) < 0 ∧ format_units (-5) 2 = formatFixed (-5) 2 ++ " B" :=
  ⟨by norm_num, format_units_negative (-5) (by norm_num) 2⟩

/-- C6: on a primed sampler, elapsed time `10` and a sent-bytes delta of
`10240` yield the upload rate string `"1.00 KB/s"`. -/
theorem upload_rate_ten_seconds (prev current : NetSnapshot) (pts now : ℚ)
    (hpts : pts ≠ 0) (hel : now - pts = 10)
    (hds : current.bytes_sent - prev.bytes_sent = 10240) :
    ∃ d st2, calc_network_speed ⟨some prev, some pts⟩ current now =
      Except.ok ("1.00 KB/s", d, st2) := by
  have hfmt : formatFixed (((10240 : ℤ) : ℚ) / 10 / 1024) 2 ++ " KB/s" = "1.00 KB/s" := by
    with_unfolding_all rfl
  have key : calc_network_speed ⟨some prev, some pts⟩ current now =
      Except.ok ("1.00 KB/s",
        (if current.bytes_recv - prev.bytes_recv < 1048576 then
          formatFixed (((current.bytes_recv - prev.bytes_recv : ℤ) : ℚ) / 10 / 1024) 2
            ++ " KB/s"
         else
          formatFixed (((current.bytes_recv - prev.bytes_recv : ℤ) : ℚ) / 10 / 1048576) 2
            ++ " MB/s"),
        ⟨some current, some now⟩) := by
    dsimp only [calc_network_speed]
    rw [if_neg hpts, hel, hds]
    rw [if_neg (show ¬(10 : ℚ) = 0 by norm_num)]
    rw [if_pos (show (10240 : ℤ) < 1048576 by norm_num)]
    rw [hfmt]
  exact ⟨_, _, key⟩

/-- C6 witness: a concrete primed state and snapshot with elapsed `10` and
sent delta `10240`. -/
theorem upload_rate_ten_seconds_witness :
    (1 : ℚ) ≠ 0 ∧ (11 : ℚ) - 1 = 10 ∧
    (⟨10240, 5⟩ : NetSnapshot).bytes_sent - (⟨0, 3⟩ : NetSnapshot).bytes_sent = 10240 ∧
    ∃ d st2, calc_network_speed ⟨some ⟨0, 3⟩, some 1⟩ ⟨10240, 5⟩ 11 =
      Except.ok ("1.00 KB/s", d, st2) :=
  ⟨by norm_num, by norm_num, by decide,
    upload_rate_ten_seconds ⟨0, 3⟩ ⟨10240, 5⟩ 1 11 (by norm_num) (by norm_num) (by decide)⟩

/-- C1 fails on the code: with a primed state and `elapsed = 0` the function
divides by zero (`ZeroDivisionError`, modelled `Except.error ()`) instead of
returning the zero-rate pair, and with `elapsed < 0` it returns a finite but
negative rate string instead of the zero-rate pair. -/
theorem elapsed_guard_missing :
    calc_network_speed ⟨some ⟨100, 200⟩, some 5⟩ ⟨1124, 200⟩ 5 = Except.error () ∧
    calc_network_speed ⟨some ⟨100, 200⟩, some 5⟩ ⟨1124, 200⟩ 4 =
      Except.ok ("-1.00 KB/s", "0.00 KB/s", ⟨some ⟨1124, 200⟩, some 4⟩) ∧
    "-1.00 KB/s" ≠ "0.00 KB/s" :=
  ⟨by with_unfolding_all rfl, by with_unfolding_all rfl, by decide⟩

/-- C2 fails on the code: a sent-counter regression (delta `-1048576` over
elapsed `1`) is formatted as the negative rate string `"-1024.00 KB/s"`; no
clamp or rebaseline is applied (the receive direction, with a positive
delta, formats normally in the same call). -/
theorem counter_reset_negative_rate :
    calc_network_speed ⟨some ⟨1048576, 1048576⟩, some 1⟩ ⟨0, 2097152⟩ 2 =
      Except.ok ("-1024.00 KB/s", "1.00 MB/s", ⟨some ⟨0, 2097152⟩, some 2⟩) ∧
    (∃ t, "-1024.00 KB/s" = "-" ++ t) :=
  ⟨by with_unfolding_all rfl, ⟨"1024.00 KB/s", by with_unfolding_all rfl⟩⟩

/-- C8 fails on the code: with a primed state and a repeated timestamp the
sampling operation raises `ZeroDivisionError` out of the core instead of
degrading to a zero/neutral output. -/
theorem sampler_raises_zero_division :
    calc_network_speed ⟨some ⟨0, 0⟩, some 3⟩ ⟨500, 500⟩ 3 = Except.error () := by
  with_unfolding_all rfl

/-- C3 counterexample: with elapsed `1/2` and sent delta `524288` the rate
is exactly `1048576` bytes/second, so the claim requires the MB/s rendering
`"1.00 MB/s"`; the code tests the raw delta (`524288 < 1048576`) and emits
`"1024.00 KB/s"` instead. -/
theorem unit_from_rate_counterexample :
    (0 : ℚ) < 3 / 2 - 1 ∧
    ((524288 : ℤ) : ℚ) / (3 / 2 - 1) = 1048576 ∧
    formatFixed (((524288 : ℤ) : ℚ) / (3 / 2 - 1) / 1048576) 2 ++ " MB/s" = "1.00 MB/s" ∧
    calc_network_speed ⟨some ⟨0, 0⟩, some 1⟩ ⟨524288, 0⟩ (3 / 2) =
      Except.ok ("1024.00 KB/s", "0.00 KB/s", ⟨some ⟨524288, 0⟩, some (3 / 2)⟩) ∧
    "1024.00 KB/s" ≠ "1.00 MB/s" :=
  ⟨by norm_num, by norm_num, by with_unfolding_all rfl, by with_unfolding_all rfl, by decide⟩

/-- C3 amended: the display unit per direction is selected from the raw byte
delta of the interval, not from the per-second rate: a delta strictly below
`1048576` bytes renders as KB/s (rate divided by `1024`), any other delta —
including exactly `1048576` — renders as MB/s (rate divided by `1048576`),
two decimals. -/
theorem unit_selected_by_delta (prev current : NetSnapshot) (pts now : ℚ)
    (hpts : pts ≠ 0) (hel : 0 < now - pts)
    (_hup : 0 ≤ current.bytes_sent - prev.bytes_sent)
    (_hdown : 0 ≤ current.bytes_recv - prev.bytes_recv) :
    calc_network_speed ⟨some prev, some pts⟩ current now =
      Except.ok
        ((if current.bytes_sent - prev.bytes_sent < 1048576 then
            formatFixed (((current.bytes_sent - prev.bytes_sent : ℤ) : ℚ) / (now - pts) / 1024) 2
              ++ " KB/s"
          else
            formatFixed (((current.bytes_sent - prev.bytes_sent : ℤ) : ℚ) / (now - pts) / 1048576) 2
              ++ " MB/s"),
         (if current.bytes_recv - prev.bytes_recv < 1048576 then
            formatFixed (((current.bytes_recv - prev.bytes_recv : ℤ) : ℚ) / (now - pts) / 1024) 2
              ++ " KB/s"
          else
            formatFixed (((current.bytes_recv - prev.bytes_recv : ℤ) : ℚ) / (now - pts) / 1048576) 2
              ++ " MB/s"),
         ⟨some current, some now⟩) := by
  dsimp only [calc_network_speed]
  rw [if_neg hpts, if_neg hel.ne']

/-- C3 amended witness: sent delta exactly `1048576` over elapsed `2` — a
rate of `524288` bytes/second (below 1 MB/s) — still renders as MB/s,
because the delta is tested. -/
theorem unit_selected_by_delta_witness :
    calc_network_speed ⟨some ⟨0, 0⟩, some 2⟩ ⟨1048576, 1024⟩ 4 =
      Except.ok ("0.50 MB/s", "0.50 KB/s", ⟨some ⟨1048576, 1024⟩, some 4⟩) := by
  have h := unit_selected_by_delta ⟨0, 0⟩ ⟨1048576, 1024⟩ 2 4
    (by norm_num) (by norm_num) (by decide) (by decide)
  rw [h]
  with_unfolding_all rfl

/-- Every normal return of `_calc_network_speed` carries the state
`⟨some current, some now⟩` stored by lines 67-68. -/
theorem calc_ok_state (st : SamplerState) (current : NetSnapshot) (now : ℚ) :
    ∀ r, calc_network_speed st current now = Except.ok r →
      r.2.2 = ⟨some current, some now⟩ := by
  intro r h
  obtain ⟨pn, pt⟩ := st
  cases pn with
  | none =>
      cases pt <;>
        (dsimp only [calc_network_speed] at h; injection h with h2; subst h2; rfl)
  | some prev =>
      cases pt with
      | none =>
          dsimp only [calc_network_speed] at h
          injection h with h2
          subst h2
          rfl
      | some pts =>
          dsimp only [calc_network_speed] at h
          split at h
          · injection h with h2; subst h2; rfl
          · split at h
            · exact Except.noConfusion h
            · injection h with h2; subst h2; rfl

/-- C7 counterexample: with a primed state and a repeated timestamp the call
raises, lines 67-68 never execute, and the stored snapshot is NOT the
snapshot just passed in — the overwrite is not unconditional. -/
theorem overwrite_skipped_on_error :
    sampleStep ⟨some ⟨0, 0⟩, some 5⟩ ⟨7, 7⟩ 5 = ⟨some ⟨0, 0⟩, some 5⟩ ∧
    (⟨some ⟨0, 0⟩, some 5⟩ : SamplerState) ≠ ⟨some ⟨7, 7⟩, some 5⟩ :=
  ⟨by with_unfolding_all rfl, by with_unfolding_all decide⟩

/-- C7 amended: after every call that returns normally the stored previous
snapshot and timestamp equal exactly the snapshot just passed in; and a
primed sampler never regresses to the uninitialized state, even when the
call raises (the raising call leaves the old state in place). -/
theorem overwrite_on_normal_return (st : SamplerState) (current : NetSnapshot) (now : ℚ) :
    (∀ r, calc_network_speed st current now = Except.ok r →
      r.2.2 = ⟨some current, some now⟩) ∧
    (st.prev_net.isSome = true → (sampleStep st current now).prev_net.isSome = true) := by
  refine ⟨calc_ok_state st current now, ?_⟩
  intro hs
  cases hc : calc_network_speed st current now with
  | ok r =>
      simp only [sampleStep, hc]
      rw [calc_ok_state st current now r hc]
      rfl
  | error e =>
      simp only [sampleStep, hc]
      exact hs

/-- C7 amended witness: a normal call stores the passed snapshot, and a
primed sampler stays primed. -/
theorem overwrite_on_normal_return_witness :
    ((("0.00 KB/s", "0.00 KB/s",
        (⟨some ⟨1, 1⟩, some 2⟩ : SamplerState)) : String × String × SamplerState).2.2 =
      (⟨some ⟨1, 1⟩, some 2⟩ : SamplerState)) ∧
    (sampleStep ⟨some ⟨0, 0⟩, some 1⟩ ⟨1, 1⟩ 2).prev_net.isSome = true :=
  ⟨(overwrite_on_normal_return ⟨some ⟨0, 0⟩, some 1⟩ ⟨1, 1⟩ 2).1 _
      (by with_unfolding_all rfl),
   (overwrite_on_normal_return ⟨some ⟨0, 0⟩, some 1⟩ ⟨1, 1⟩ 2).2 rfl⟩

/-- The upload component of a primed call, written so that the right-hand
side mentions only the timestamps and the sent-bytes counters. -/
theorem upload_proj (p c : NetSnapshot) (pts now : ℚ) :
    Except.map (fun r => r.1) (calc_network_speed ⟨some p, some pts⟩ c now) =
      (if pts = 0 then Except.ok "0.00 KB/s"
       else if now - pts = 0 then Except.error ()
       else Except.ok (if c.bytes_sent - p.bytes_sent < 1048576 then
          formatFixed (((c.bytes_sent - p.bytes_sent : ℤ) : ℚ) / (now - pts) / 1024) 2
            ++ " KB/s"
        else
          formatFixed (((c.bytes_sent - p.bytes_sent : ℤ) : ℚ) / (now - pts) / 1048576) 2
            ++ " MB/s")) := by
  dsimp only [calc_network_speed]
  split_ifs <;> rfl

/-- The download component of a primed call, written so that the right-hand
side mentions only the timestamps and the received-bytes counters. -/
theorem download_proj (p c : NetSnapshot) (pts now : ℚ) :
    Except.map (fun r => r.2.1) (calc_network_speed ⟨some p, some pts⟩ c now) =
      (if pts = 0 then Except.ok "0.00 KB/s"
       else if now - pts = 0 then Except.error ()
       else Except.ok (if c.bytes_recv - p.bytes_recv < 1048576 then
          formatFixed (((c.bytes_recv - p.bytes_recv : ℤ) : ℚ) / (now - pts) / 1024) 2
            ++ " KB/s"
        else
          formatFixed (((c.bytes_recv - p.bytes_recv : ℤ) : ℚ) / (now - pts) / 1048576) 2
            ++ " MB/s")) := by
  dsimp only [calc_network_speed]
  split_ifs <;> rfl

/-- C10: the upload string depends only on the timestamps and the
sent-bytes counters, and the download string only on the timestamps and the
received-bytes counters (two-run independence, per direction). -/
theorem direction_independence :
    (∀ (p₁ p₂ c₁ c₂ : NetSnapshot) (pts now : ℚ),
        p₁.bytes_sent = p₂.bytes_sent → c₁.bytes_sent = c₂.bytes_sent →
        Except.map (fun r => r.1) (calc_network_speed ⟨some p₁, some pts⟩ c₁ now) =
          Except.map (fun r => r.1) (calc_network_speed ⟨some p₂, some pts⟩ c₂ now)) ∧
    (∀ (p₁ p₂ c₁ c₂ : NetSnapshot) (pts now : ℚ),
        p₁.bytes_recv = p₂.bytes_recv → c₁.bytes_recv = c₂.bytes_recv →
        Except.map (fun r => r.2.1) (calc_network_speed ⟨some p₁, some pts⟩ c₁ now) =
          Except.map (fun r => r.2.1) (calc_network_speed ⟨some p₂, some pts⟩ c₂ now)) := by
  constructor
  · intro p₁ p₂ c₁ c₂ pts now h1 h2
    rw [upload_proj, upload_proj, h1, h2]
  · intro p₁ p₂ c₁ c₂ pts now h1 h2
    rw [download_proj, download_proj, h1, h2]

/-- C10 witness: two runs agreeing on timestamps and sent counters but with
arbitrary different received counters produce the same upload string (and
symmetrically for download). -/
theorem direction_independence_witness :
    (Except.map (fun r => r.1)
        (calc_network_speed ⟨some ⟨5, 100⟩, some 1⟩ ⟨10245, 200⟩ 2) =
      Except.map (fun r => r.1)
        (calc_network_speed ⟨some ⟨5, 999⟩, some 1⟩ ⟨10245, 12345⟩ 2)) ∧
    (Except.map (fun r => r.2.1)
        (calc_network_speed ⟨some ⟨100, 7⟩, some 1⟩ ⟨200, 10247⟩ 2) =
      Except.map (fun r => r.2.1)
        (calc_network_speed ⟨some ⟨999, 7⟩, some 1⟩ ⟨12345, 10247⟩ 2)) :=
  ⟨direction_independence.1 ⟨5, 100⟩ ⟨5, 999⟩ ⟨10245, 200⟩ ⟨10245, 12345⟩ 1 2 rfl rfl,
   direction_independence.2 ⟨100, 7⟩ ⟨999, 7⟩ ⟨200, 10247⟩ ⟨12345, 10247⟩ 1 2 rfl rfl⟩
